import Mathlib

/-!
Verification of the authenticate-or-act tool logic of the
`dain-protocol/oauth-example-service` repository.

The repository contains two small TypeScript services
(`src/google/src/index.ts` and `src/gist-creator/src/index.ts`).  Each
service keeps an in-memory token store (`Map<string, OAuth2Tokens>`),
registers an OAuth2 `onSuccess` callback that writes into that store, and
exposes action tools (send-gmail; get-github-profile; create-github-gist)
whose handlers branch on whether the caller's identity has a stored
credential: if not, they return an "authenticate" result carrying an
authorization URL; if so, they issue one authenticated outbound HTTP call
and shape the JSON response into a structured tool result.

This file shallowly embeds that logic: JavaScript/JSON values become an
inductive `Json` type (with a constructor for `undefined`, which JS
property access can produce), the token store becomes an association
list, the network becomes an explicit oracle `Net` mapping the one
outbound request to an outcome (network error, or a status code together
with the result of `response.json()`), and each async handler becomes a
pure function returning the store it leaves behind, the list of outbound
requests it issued, and either a structured tool result or an uncaught
failure (`Except.error ()`, the image of an unhandled promise rejection).
-/

/-- JavaScript values of the JSON fragment this program manipulates,
plus `undefined` for JavaScript `undefined` (the value of a property access
on an object lacking that key, as happens when a provider response is
missing an expected field). -/
inductive Json where
  | undefined : Json
  | null : Json
  | bool : Bool → Json
  | num : Int → Json
  | str : String → Json
  | obj : List (String × Json) → Json

/-- First binding of a key in a field list (object literals and
`JSON.parse` results in this program have distinct keys, so first = only). -/
def lookupField : List (String × Json) → String → Option Json
  | [], _ => none
  | (k, v) :: rest, key => if k = key then some v else lookupField rest key

/-- Observer used in specifications: the field of a JSON object, if the
value is an object and has the field. -/
def jfield (j : Json) (k : String) : Option Json :=
  match j with
  | .obj fields => lookupField fields k
  | _ => none

/-- JavaScript property access `j.k` as the handlers perform it on parsed
response bodies: on an object it yields the field's value, or `undefined`
when absent; on `null` or `undefined` it throws a `TypeError`
(`Except.error ()`); on a primitive it yields `undefined` (none of the
accessed names is a built-in property of string, number or boolean). -/
def jsAccess (j : Json) (k : String) : Except Unit Json :=
  match j with
  | .obj fields =>
      match lookupField fields k with
      | some v => .ok v
      | none => .ok .undefined
  | .null => .error ()
  | .undefined => .error ()
  | _ => .ok .undefined

/-- JavaScript string coercion as performed by template literals like
`` `To: ${to}` `` for the values that can appear here. -/
def jsToString : Json → String
  | .undefined => "undefined"
  | .null => "null"
  | .bool true => "true"
  | .bool false => "false"
  | .num n => toString n
  | .str s => s
  | .obj _ => "[object Object]"

/-! ## UTF-8 and base64url (the email tool's encoding)

`Buffer.from(email)` takes the UTF-8 bytes of the string;
`.toString('base64')` is standard base64 with `=` padding; the handler
then substitutes `+`→`-`, `/`→`_` and strips the trailing `=` run. -/

/-- UTF-8 encoding of a single code point. -/
def utf8EncodeChar (c : Nat) : List Nat :=
  if c < 0x80 then [c]
  else if c < 0x800 then
    [0xC0 + c / 64, 0x80 + c % 64]
  else if c < 0x10000 then
    [0xE0 + c / 4096, 0x80 + (c / 64) % 64, 0x80 + c % 64]
  else
    [0xF0 + c / 262144, 0x80 + (c / 4096) % 64, 0x80 + (c / 64) % 64, 0x80 + c % 64]

/-- The UTF-8 bytes of a string (what `Buffer.from` produces). -/
def strBytes (s : String) : List Nat :=
  (s.data.map (fun c => utf8EncodeChar c.toNat)).flatten

/-- The standard base64 alphabet. -/
def b64Alphabet : List Char :=
  "ABCDEFGHIJKLMNOPQRSTUVWXYZabcdefghijklmnopqrstuvwxyz0123456789+/".data

/-- Character at an index of the base64 alphabet. -/
def b64CharAt (n : Nat) : Char := b64Alphabet.getD n 'A'

/-- Standard base64 of a byte list, as characters, with `=` padding
(`Buffer.toString('base64')`). -/
def base64Chunks : List Nat → List Char
  | [] => []
  | [a] => [b64CharAt (a / 4), b64CharAt (a % 4 * 16), '=', '=']
  | [a, b] => [b64CharAt (a / 4), b64CharAt (a % 4 * 16 + b / 16),
               b64CharAt (b % 16 * 4), '=']
  | a :: b :: c :: rest =>
      b64CharAt (a / 4) :: b64CharAt (a % 4 * 16 + b / 16) ::
      b64CharAt (b % 16 * 4 + c / 64) :: b64CharAt (c % 64) :: base64Chunks rest

/-- `.replace(/\+/g, '-').replace(/\//g, '_')` on a base64 character. -/
def b64UrlSubst (c : Char) : Char :=
  if c = '+' then '-' else if c = '/' then '_' else c

/-- `.replace(/=+$/, '')`: strip the trailing run of `=`. -/
def stripTrailingEq (cs : List Char) : List Char :=
  ((cs.reverse.dropWhile fun c => c = '=')).reverse

/-- The email tool's encoding: standard base64 of the bytes, then the
URL-safe substitution and padding strip. -/
def base64UrlOfBytes (bytes : List Nat) : String :=
  String.mk (stripTrailingEq ((base64Chunks bytes).map b64UrlSubst))

/-- Index of a character in the base64 alphabet, undoing the URL-safe
substitution first. -/
def b64Value (c : Char) : Option Nat :=
  let c := if c = '-' then '+' else if c = '_' then '/' else c
  let i := b64Alphabet.indexOf c
  if i < 64 then some i else none

/-- Decode base64url characters (padding already stripped, so the final
group may have length 2 or 3). -/
def b64DecodeChunks : List Char → Option (List Nat)
  | [] => some []
  | [_] => none
  | [a, b] => do
      let va ← b64Value a
      let vb ← b64Value b
      pure [va * 4 + vb / 16]
  | [a, b, c] => do
      let va ← b64Value a
      let vb ← b64Value b
      let vc ← b64Value c
      pure [va * 4 + vb / 16, vb % 16 * 16 + vc / 4]
  | a :: b :: c :: d :: rest => do
      let va ← b64Value a
      let vb ← b64Value b
      let vc ← b64Value c
      let vd ← b64Value d
      let tail ← b64DecodeChunks rest
      pure ((va * 4 + vb / 16) :: (vb % 16 * 16 + vc / 4) :: (vc % 4 * 64 + vd) :: tail)

/-- base64url decoding of a string to bytes. -/
def base64UrlDecode (s : String) : Option (List Nat) :=
  b64DecodeChunks s.data

/-! ## Token store

Both services declare `const tokenStore = new Map<string, OAuth2Tokens>()`
and each provider's `onSuccess(agentId, tokens)` callback runs
`tokenStore.set(agentId, tokens)`.  The handlers read it with
`tokenStore.get(agentInfo.id)`. -/

/-- The credential material the SDK delivers to `onSuccess`; the handlers
only ever read `accessToken`. -/
structure OAuth2Tokens where
  accessToken : String
  refreshToken : Option String
  deriving DecidableEq

/-- The in-memory token store, as an association list from caller
identity to credential. -/
abbrev TokenStore := List (String × OAuth2Tokens)

/-- `tokenStore.get k`: first (= only) binding of `k`. -/
def storeGet (s : TokenStore) (k : String) : Option OAuth2Tokens :=
  match s with
  | [] => none
  | (k₁, v) :: rest => if k₁ = k then some v else storeGet rest k

/-- `tokenStore.set k v`: overwrite the binding of `k` if present, else
append. -/
def storeSet (s : TokenStore) (k : String) (v : OAuth2Tokens) : TokenStore :=
  match s with
  | [] => [(k, v)]
  | (k₁, v₁) :: rest =>
      if k₁ = k then (k, v) :: rest else (k₁, v₁) :: storeSet rest k v

/-- The google provider's `onSuccess` callback
(src/google/src/index.ts): stores the tokens under the agent id. -/
def googleOnSuccess (store : TokenStore) (agentId : String)
    (tokens : OAuth2Tokens) : TokenStore :=
  storeSet store agentId tokens

/-- The github provider's `onSuccess` callback
(src/gist-creator/src/index.ts): stores the tokens under the agent id. -/
def githubOnSuccess (store : TokenStore) (agentId : String)
    (tokens : OAuth2Tokens) : TokenStore :=
  storeSet store agentId tokens

/-- Token-store states reachable in a service run: the store starts
empty, and the only code that writes to it is the providers' `onSuccess`
callback, i.e. `storeSet`. -/
inductive ReachableStore : TokenStore → Prop where
  | init : ReachableStore []
  | step (s : TokenStore) (k : String) (v : OAuth2Tokens) :
      ReachableStore s → ReachableStore (storeSet s k v)

/-! ## HTTP and tool-result model

Each handler issues at most one `fetch`.  The network is an oracle from
the request to an outcome: `fetch` rejecting (network error), or a
response with a status code and the result of `response.json()` —
`Except.error ()` when the body is not valid JSON (so `json()` rejects),
`Except.ok j` otherwise.  The handlers never read the status code. -/

/-- An outbound HTTP request as the handlers build it; `body` is the JSON
value passed to `JSON.stringify`, `none` when no body is sent. -/
structure HttpRequest where
  method : String
  url : String
  headers : List (String × String)
  body : Option Json

/-- What awaiting `fetch` and then `response.json()` can yield. -/
inductive FetchOutcome where
  | netError : FetchOutcome
  | response : Nat → Except Unit Json → FetchOutcome

/-- The network oracle a handler runs against. -/
abbrev Net := HttpRequest → FetchOutcome

/-- The UI hint of a tool result; `uiData` is the object the source
passes to `JSON.stringify`. -/
structure UIHint where
  type : String
  uiData : Json

/-- The structured tool result the handlers return. -/
structure ToolResult where
  text : String
  data : Json
  ui : UIHint

/-- One handler invocation: the token store it leaves behind, the
outbound requests it issued (in order), and either a structured tool
result or an uncaught failure of the invocation. -/
structure HandlerRun where
  store₁ : TokenStore
  requests : List HttpRequest
  outcome : Except Unit ToolResult

/-- The "authenticate first" result of the send-gmail handler's
no-credential branch (src/google/src/index.ts). -/
def googleAuthResult (authUrl : String) : ToolResult where
  text := "Please authenticate with Google first"
  data := .null
  ui :=
    { type := "oauth2"
      uiData := .obj
        [("title", .str "Google Authentication"),
         ("logo", .str "https://www.google.com/gmail/about/static-2.0/images/logo-gmail.png"),
         ("content", .str "Please authenticate with Google to send emails"),
         ("url", .str authUrl),
         ("provider", .str "google")] }

/-- The "authenticate first" result of both gist-creator handlers'
no-credential branches (src/gist-creator/src/index.ts); the two literals
are identical apart from the summary text's line break. -/
def githubAuthResult (authUrl : String) : ToolResult where
  text := "Please authenticate with GitHub first, i have displayed a component to authenticate with GitHub"
  data := .null
  ui :=
    { type := "oauth2"
      uiData := .obj
        [("title", .str "GitHub Authentication"),
         ("logo", .str "https://github.githubassets.com/assets/GitHub-Mark-ea2971cee799.png"),
         ("content", .str "Please authenticate with GitHub to continue"),
         ("url", .str authUrl),
         ("provider", .str "github")] }

/-- The raw email string the send-gmail handler composes:
`['Content-Type: ...', 'MIME-Version: 1.0\n', `To: ...`, `Subject: ...\n\n`, body].join('')`. -/
def composeEmail (toAddr subject body : String) : String :=
  "Content-Type: text/plain; charset=\"UTF-8\"\n" ++
  "MIME-Version: 1.0\n" ++
  ("To: " ++ toAddr ++ "\n") ++
  ("Subject: " ++ subject ++ "\n\n") ++
  body

/-- `Buffer.from(email).toString('base64').replace(/\+/g,'-').replace(/\//g,'_').replace(/=+$/,'')`. -/
def encodedEmail (toAddr subject body : String) : String :=
  base64UrlOfBytes (strBytes (composeEmail toAddr subject body))

/-- The Gmail send endpoint. -/
def gmailSendUrl : String :=
  "https://gmail.googleapis.com/gmail/v1/users/me/messages/send"

/-- `await fetch(req)` followed by `await response.json()` and result
shaping, as every authenticated branch performs it: a `fetch` rejection
(network error) or a `json()` rejection (body not valid JSON) propagates
as an uncaught failure of the invocation; otherwise the parsed body is
shaped into the tool result.  The status code is never consulted. -/
def runFetch (store : TokenStore) (net : Net) (req : HttpRequest)
    (shape : Json → Except Unit ToolResult) : HandlerRun :=
  match net req with
  | .netError => { store₁ := store, requests := [req], outcome := .error () }
  | .response _ (.error _) =>
      { store₁ := store, requests := [req], outcome := .error () }
  | .response _ (.ok parsed) =>
      { store₁ := store, requests := [req], outcome := shape parsed }

/-- The request the send-gmail handler issues. -/
def sendEmailReq (tokens : OAuth2Tokens) (toAddr subject body : String) :
    HttpRequest where
  method := "POST"
  url := gmailSendUrl
  headers := [("Authorization", "Bearer " ++ tokens.accessToken),
              ("Content-Type", "application/json")]
  body := some (.obj [("raw", .str (encodedEmail toAddr subject body))])

/-- Shaping of a parsed Gmail send response into the tool result (the
tail of `sendEmailConfig.handler`); `result.id` is `undefined` when the
response lacks `id`, and throws when the parsed body is `null`. -/
def emailResult (toAddr subject : String) (result : Json) :
    Except Unit ToolResult := do
  let rid ← jsAccess result "id"
  pure
    { text := "Email sent successfully"
      data := .obj [("messageId", rid)]
      ui :=
        { type := "card"
          uiData := .obj
            [("title", .str "Email Sent"),
             ("content", .str ("To: " ++ toAddr ++ "\nSubject: " ++ subject
                ++ "\nMessage ID: " ++ jsToString rid))] } }

/-- The send-gmail handler (src/google/src/index.ts, `sendEmailConfig.handler`).
`authUrl` is what the external delegate's `generateAuthUrl("google", agentInfo.id)`
returns in the no-credential branch. -/
def sendEmailHandler (store : TokenStore) (net : Net) (authUrl : String)
    (agentId toAddr subject body : String) : HandlerRun :=
  match storeGet store agentId with
  | none =>
      { store₁ := store, requests := [], outcome := .ok (googleAuthResult authUrl) }
  | some tokens =>
      runFetch store net (sendEmailReq tokens toAddr subject body)
        (emailResult toAddr subject)

/-- The GitHub authenticated-user endpoint. -/
def githubUserUrl : String := "https://api.github.com/user"

/-- The GitHub gist-creation endpoint. -/
def githubGistsUrl : String := "https://api.github.com/gists"

/-- The request the get-github-profile handler issues. -/
def profileReq (tokens : OAuth2Tokens) : HttpRequest where
  method := "GET"
  url := githubUserUrl
  headers := [("Authorization", "Bearer " ++ tokens.accessToken),
              ("Accept", "application/json")]
  body := none

/-- Shaping of a parsed `/user` response into the profile tool result
(the tail of `getUserProfileConfig.handler`); each `profile.x` access can
throw when the parsed body is `null`. -/
def profileResult (profile : Json) : Except Unit ToolResult := do
  let login ← jsAccess profile "login"
  let name ← jsAccess profile "name"
  let email ← jsAccess profile "email"
  let bio ← jsAccess profile "bio"
  let publicRepos ← jsAccess profile "public_repos"
  pure
    { text := "Retrieved GitHub profile for " ++ jsToString login
      data := .obj [("login", login), ("name", name), ("email", email),
                    ("bio", bio), ("public_repos", publicRepos)]
      ui :=
        { type := "card"
          uiData := .obj
            [("title", .str "GitHub Profile"),
             ("content", .str ("Login: " ++ jsToString login
                ++ "\nName: " ++ jsToString name
                ++ "\nEmail: " ++ jsToString email
                ++ "\nBio: " ++ jsToString bio
                ++ "\nPublic Repos: " ++ jsToString publicRepos))] } }

/-- The get-github-profile handler
(src/gist-creator/src/index.ts, `getUserProfileConfig.handler`). -/
def getUserProfileHandler (store : TokenStore) (net : Net) (authUrl : String)
    (agentId : String) : HandlerRun :=
  match storeGet store agentId with
  | none =>
      { store₁ := store, requests := [], outcome := .ok (githubAuthResult authUrl) }
  | some tokens =>
      runFetch store net (profileReq tokens) profileResult

/-- The JSON body the create-github-gist handler passes to
`JSON.stringify`: `{ description, public, files: { [filename]: { content } } }`. -/
def gistRequestBody (description : String) (isPublic : Bool)
    (filename content : String) : Json :=
  .obj
    [("description", .str description),
     ("public", .bool isPublic),
     ("files", .obj [(filename, .obj [("content", .str content)])])]

/-- The request the create-github-gist handler issues. -/
def gistReq (tokens : OAuth2Tokens) (description : String) (isPublic : Bool)
    (filename content : String) : HttpRequest where
  method := "POST"
  url := githubGistsUrl
  headers := [("Authorization", "Bearer " ++ tokens.accessToken),
              ("Accept", "application/json"),
              ("Content-Type", "application/json")]
  body := some (gistRequestBody description isPublic filename content)

/-- Shaping of a parsed gist-creation response into the tool result
(the tail of `createGistConfig.handler`). -/
def gistResult (gist : Json) : Except Unit ToolResult := do
  let htmlUrl ← jsAccess gist "html_url"
  let gid ← jsAccess gist "id"
  pure
    { text := "Created Gist: " ++ jsToString htmlUrl
      data := .obj [("html_url", htmlUrl), ("id", gid)]
      ui :=
        { type := "card"
          uiData := .obj
            [("title", .str "GitHub Gist"),
             ("content", .str ("URL: " ++ jsToString htmlUrl
                ++ "\nID: " ++ jsToString gid)),
             ("buttonText", .str "View Gist"),
             ("buttonUrl", htmlUrl)] } }

/-- The create-github-gist handler
(src/gist-creator/src/index.ts, `createGistConfig.handler`).  `isPublic`
is the handler's binding of the validated `public` input field. -/
def createGistHandler (store : TokenStore) (net : Net) (authUrl : String)
    (agentId description : String) (isPublic : Bool)
    (filename content : String) : HandlerRun :=
  match storeGet store agentId with
  | none =>
      { store₁ := store, requests := [], outcome := .ok (githubAuthResult authUrl) }
  | some tokens =>
      runFetch store net (gistReq tokens description isPublic filename content)
        gistResult

/-- The create-gist input schema's `public: z.boolean().default(true)`
(src/gist-creator/src/index.ts, `createGistConfig.input`): an omitted
`public` field validates to the default `true`. -/
def parsePublicField : Option Bool → Bool
  | none => true
  | some b => b

/-- The failure modes of the outbound call that surface as promise
rejections in the handler: `fetch` itself rejecting, or `response.json()`
rejecting because the body is not valid JSON.  A response whose body
parses — whatever its status code — is not of this kind. -/
def fetchFails : FetchOutcome → Prop
  | .netError => True
  | .response _ (.error _) => True
  | .response _ (.ok _) => False

/-! ## Helper lemmas -/

theorem storeGet_storeSet_self (s : TokenStore) (k : String) (v : OAuth2Tokens) :
    storeGet (storeSet s k v) k = some v := by
  induction s with
  | nil => simp [storeSet, storeGet]
  | cons hd tl ih =>
      obtain ⟨k₁, v₁⟩ := hd
      by_cases h : k₁ = k <;> simp [storeSet, storeGet, h, ih]

theorem mem_keys_storeSet (s : TokenStore) (k x : String) (v : OAuth2Tokens) :
    x ∈ (storeSet s k v).map Prod.fst ↔ x = k ∨ x ∈ s.map Prod.fst := by
  induction s with
  | nil => simp [storeSet]
  | cons hd tl ih =>
      obtain ⟨k₁, v₁⟩ := hd
      by_cases h : k₁ = k
      · subst h; simp [storeSet]
      · simp [storeSet, h, ih]; tauto

theorem nodup_keys_storeSet (s : TokenStore) (k : String) (v : OAuth2Tokens)
    (h : (s.map Prod.fst).Nodup) : ((storeSet s k v).map Prod.fst).Nodup := by
  induction s with
  | nil => simp [storeSet]
  | cons hd tl ih =>
      obtain ⟨k₁, v₁⟩ := hd
      simp only [List.map_cons, List.nodup_cons] at h
      by_cases hk : k₁ = k
      · subst hk
        simpa [storeSet] using h
      · simp only [storeSet, hk, if_false, List.map_cons, List.nodup_cons]
        refine ⟨?_, ih h.2⟩
        rw [mem_keys_storeSet]
        rintro (rfl | hm)
        · exact hk rfl
        · exact h.1 hm

theorem reachable_nodup_keys (s : TokenStore) (h : ReachableStore s) :
    (s.map Prod.fst).Nodup := by
  induction h with
  | init => simp
  | step s k v _ ih => exact nodup_keys_storeSet s k v ih

theorem runFetch_store (store : TokenStore) (net : Net) (req : HttpRequest)
    (shape : Json → Except Unit ToolResult) :
    (runFetch store net req shape).store₁ = store := by
  unfold runFetch; split <;> rfl

theorem runFetch_requests (store : TokenStore) (net : Net) (req : HttpRequest)
    (shape : Json → Except Unit ToolResult) :
    (runFetch store net req shape).requests = [req] := by
  unfold runFetch; split <;> rfl

theorem runFetch_ok (store : TokenStore) (net : Net) (req : HttpRequest)
    (shape : Json → Except Unit ToolResult) (r : ToolResult)
    (h : (runFetch store net req shape).outcome = .ok r) :
    ∃ j, shape j = .ok r := by
  unfold runFetch at h
  split at h <;> simp_all
  exact ⟨_, h⟩

theorem runFetch_fails (store : TokenStore) (net : Net) (req : HttpRequest)
    (shape : Json → Except Unit ToolResult) (hf : fetchFails (net req)) :
    (runFetch store net req shape).outcome = .error () := by
  unfold runFetch
  split
  all_goals rename_i heq
  all_goals rw [heq] at hf
  all_goals simp_all [fetchFails]

theorem except_bind_ok {α β : Type} (x : Except Unit α) (f : α → Except Unit β)
    (b : β) (h : (x >>= f) = .ok b) : ∃ a, x = .ok a ∧ f a = .ok b := by
  cases x with
  | error e => simp [Bind.bind, Except.bind] at h
  | ok a => exact ⟨a, rfl, by simpa [Bind.bind, Except.bind] using h⟩

theorem emailResult_ok (toAddr subject : String) (j : Json) (r : ToolResult)
    (h : emailResult toAddr subject j = .ok r) :
    r.ui.type = "card" ∧ r.data ≠ Json.null := by
  unfold emailResult at h
  obtain ⟨rid, _, h⟩ := except_bind_ok _ _ _ h
  simp [pure, Except.pure] at h
  subst h
  exact ⟨rfl, fun hh => Json.noConfusion hh⟩

theorem profileResult_ok (j : Json) (r : ToolResult)
    (h : profileResult j = .ok r) :
    r.ui.type = "card" ∧ r.data ≠ Json.null := by
  unfold profileResult at h
  obtain ⟨login, _, h⟩ := except_bind_ok _ _ _ h
  obtain ⟨name, _, h⟩ := except_bind_ok _ _ _ h
  obtain ⟨email, _, h⟩ := except_bind_ok _ _ _ h
  obtain ⟨bio, _, h⟩ := except_bind_ok _ _ _ h
  obtain ⟨repos, _, h⟩ := except_bind_ok _ _ _ h
  simp [pure, Except.pure] at h
  subst h
  exact ⟨rfl, fun hh => Json.noConfusion hh⟩

theorem gistResult_ok (j : Json) (r : ToolResult)
    (h : gistResult j = .ok r) :
    r.ui.type = "card" ∧ r.data ≠ Json.null := by
  unfold gistResult at h
  obtain ⟨htmlUrl, _, h⟩ := except_bind_ok _ _ _ h
  obtain ⟨gid, _, h⟩ := except_bind_ok _ _ _ h
  simp [pure, Except.pure] at h
  subst h
  exact ⟨rfl, fun hh => Json.noConfusion hh⟩

/-! ## Claims -/

set_option maxRecDepth 200000 in
/-- C4: for send-email inputs body `"hello\n"`, recipient `"a@b.com"`,
subject `"Hi"`, the composed message is exactly the Content-Type header,
MIME-Version header, To header, Subject header, blank line and body; its
base64url encoding (standard base64 of the UTF-8 bytes with `+`→`-`,
`/`→`_` and trailing `=` stripped) contains no `+`, no `/` and no
trailing `=`; and base64url-decoding it reproduces the composed message's
bytes exactly. -/
theorem email_base64url_roundtrip :
    composeEmail "a@b.com" "Hi" "hello\n" =
      "Content-Type: text/plain; charset=\"UTF-8\"\nMIME-Version: 1.0\nTo: a@b.com\nSubject: Hi\n\nhello\n" ∧
    encodedEmail "a@b.com" "Hi" "hello\n" =
      "Q29udGVudC1UeXBlOiB0ZXh0L3BsYWluOyBjaGFyc2V0PSJVVEYtOCIKTUlNRS1WZXJzaW9uOiAxLjAKVG86IGFAYi5jb20KU3ViamVjdDogSGkKCmhlbGxvCg" ∧
    (∀ c ∈ (encodedEmail "a@b.com" "Hi" "hello\n").data, c ≠ '+' ∧ c ≠ '/') ∧
    (encodedEmail "a@b.com" "Hi" "hello\n").data.getLast? ≠ some '=' ∧
    base64UrlDecode (encodedEmail "a@b.com" "Hi" "hello\n") =
      some (strBytes (composeEmail "a@b.com" "Hi" "hello\n")) := by
  refine ⟨rfl, by decide, by decide, by decide, by decide⟩

/-- C7: storing two credentials for the same caller identity through the
providers' `onSuccess` callbacks leaves only the second retrievable
(last-write-wins), and every token-store state reachable through those
callbacks holds at most one credential per caller identity (its key list
has no duplicates). -/
theorem token_store_last_write_wins
    (s : TokenStore) (k : String) (v₁ v₂ : OAuth2Tokens) (t : TokenStore)
    (ht : ReachableStore t) :
    storeGet (googleOnSuccess (googleOnSuccess s k v₁) k v₂) k = some v₂ ∧
    storeGet (githubOnSuccess (githubOnSuccess s k v₁) k v₂) k = some v₂ ∧
    (t.map Prod.fst).Nodup := by
  exact ⟨storeGet_storeSet_self _ _ _, storeGet_storeSet_self _ _ _,
    reachable_nodup_keys t ht⟩

/-- Witness for C7 at concrete inputs: a store reached by two successive
completions for `"agent-1"` retrieves the second credential and has
duplicate-free keys. -/
theorem token_store_last_write_wins_witness :
    storeGet (googleOnSuccess (googleOnSuccess [] "agent-1" ⟨"t1", none⟩)
        "agent-1" ⟨"t2", none⟩) "agent-1" = some ⟨"t2", none⟩ ∧
    ((googleOnSuccess (googleOnSuccess [] "agent-1" ⟨"t1", none⟩)
        "agent-1" ⟨"t2", none⟩).map Prod.fst).Nodup := by
  have h := token_store_last_write_wins [] "agent-1" ⟨"t1", none⟩ ⟨"t2", none⟩
    (googleOnSuccess (googleOnSuccess [] "agent-1" ⟨"t1", none⟩) "agent-1" ⟨"t2", none⟩)
    (ReachableStore.step _ _ _ (ReachableStore.step _ _ _ ReachableStore.init))
  exact ⟨h.1, h.2.2⟩

/-- C9: no tool invocation modifies the token store — in both the
authenticate branch and the action branch each handler leaves the store
exactly as it found it; the only writer modelled is the `onSuccess`
completion callback. -/
theorem handlers_preserve_token_store :
    (∀ store net authUrl agentId toAddr subject body,
       (sendEmailHandler store net authUrl agentId toAddr subject body).store₁
         = store) ∧
    (∀ store net authUrl agentId,
       (getUserProfileHandler store net authUrl agentId).store₁ = store) ∧
    (∀ store net authUrl agentId description isPublic filename content,
       (createGistHandler store net authUrl agentId description isPublic
         filename content).store₁ = store) := by
  refine ⟨fun store net authUrl agentId toAddr subject body => ?_,
          fun store net authUrl agentId => ?_,
          fun store net authUrl agentId description isPublic filename content => ?_⟩
  · unfold sendEmailHandler
    split
    · rfl
    · exact runFetch_store _ _ _ _
  · unfold getUserProfileHandler
    split
    · rfl
    · exact runFetch_store _ _ _ _
  · unfold createGistHandler
    split
    · rfl
    · exact runFetch_store _ _ _ _

/-- A handler run that prompted for authentication: no outbound request,
and a result with null data, an oauth2 UI hint whose data carries the
given provider name and a non-empty URL, and the given summary text. -/
def authPromptRun (run : HandlerRun) (provider text : String) : Prop :=
  run.requests = [] ∧
  ∃ r, run.outcome = .ok r ∧ r.data = Json.null ∧ r.ui.type = "oauth2" ∧
    jfield r.ui.uiData "provider" = some (.str provider) ∧
    (∃ u, jfield r.ui.uiData "url" = some (.str u) ∧ u ≠ "") ∧
    r.text = text

/-- C1: for a caller with no credential in the token store, each of the
three tools returns a result with null data, a summary text instructing
the caller to authenticate, and an oauth2 UI hint carrying the (non-empty)
authorization URL and the correct provider name ("google" for send-email,
"github" for the two GitHub tools), and issues no outbound HTTP request.
`authUrl` is the delegate's generated authorization URL, assumed
non-empty. -/
theorem unauthenticated_invocation_prompts_auth
    (store : TokenStore) (net : Net)
    (authUrl agentId toAddr subject body description filename content : String)
    (isPublic : Bool)
    (hNone : storeGet store agentId = none) (hUrl : authUrl ≠ "") :
    authPromptRun (sendEmailHandler store net authUrl agentId toAddr subject body)
      "google" "Please authenticate with Google first" ∧
    authPromptRun (getUserProfileHandler store net authUrl agentId)
      "github" "Please authenticate with GitHub first, i have displayed a component to authenticate with GitHub" ∧
    authPromptRun (createGistHandler store net authUrl agentId description
        isPublic filename content)
      "github" "Please authenticate with GitHub first, i have displayed a component to authenticate with GitHub" := by
  refine ⟨?_, ?_, ?_⟩
  · unfold sendEmailHandler
    rw [hNone]
    exact ⟨rfl, googleAuthResult authUrl, rfl, rfl, rfl, rfl, ⟨authUrl, rfl, hUrl⟩, rfl⟩
  · unfold getUserProfileHandler
    rw [hNone]
    exact ⟨rfl, githubAuthResult authUrl, rfl, rfl, rfl, rfl, ⟨authUrl, rfl, hUrl⟩, rfl⟩
  · unfold createGistHandler
    rw [hNone]
    exact ⟨rfl, githubAuthResult authUrl, rfl, rfl, rfl, rfl, ⟨authUrl, rfl, hUrl⟩, rfl⟩

/-- Witness for C1: the empty store, a throwaway network oracle and a
concrete non-empty authorization URL. -/
theorem unauthenticated_invocation_prompts_auth_witness :
    storeGet [] "agent-1" = none ∧ ("https://example.com/auth" : String) ≠ "" ∧
    authPromptRun (sendEmailHandler [] (fun _ => .netError)
        "https://example.com/auth" "agent-1" "a@b.com" "Hi" "hello")
      "google" "Please authenticate with Google first" :=
  ⟨rfl, by decide,
    (unauthenticated_invocation_prompts_auth [] (fun _ => .netError)
      "https://example.com/auth" "agent-1" "a@b.com" "Hi" "hello"
      "d" "f.txt" "c" true rfl (by decide)).1⟩

/-- C3: once a completion callback has stored a credential for a caller,
each tool invocation for that caller issues exactly one outbound request,
and that request carries `Authorization: Bearer <stored access token>`
with exactly the stored credential's access token. -/
theorem stored_credential_one_bearer_call
    (s : TokenStore) (net : Net)
    (authUrl agentId toAddr subject body description filename content : String)
    (isPublic : Bool) (tokens : OAuth2Tokens) :
    (∃ req, (sendEmailHandler (googleOnSuccess s agentId tokens) net authUrl
        agentId toAddr subject body).requests = [req] ∧
      ("Authorization", "Bearer " ++ tokens.accessToken) ∈ req.headers) ∧
    (∃ req, (getUserProfileHandler (githubOnSuccess s agentId tokens) net
        authUrl agentId).requests = [req] ∧
      ("Authorization", "Bearer " ++ tokens.accessToken) ∈ req.headers) ∧
    (∃ req, (createGistHandler (githubOnSuccess s agentId tokens) net authUrl
        agentId description isPublic filename content).requests = [req] ∧
      ("Authorization", "Bearer " ++ tokens.accessToken) ∈ req.headers) := by
  refine ⟨?_, ?_, ?_⟩
  · unfold sendEmailHandler googleOnSuccess
    rw [storeGet_storeSet_self]
    exact ⟨sendEmailReq tokens toAddr subject body, runFetch_requests _ _ _ _,
      List.mem_cons_self _ _⟩
  · unfold getUserProfileHandler githubOnSuccess
    rw [storeGet_storeSet_self]
    exact ⟨profileReq tokens, runFetch_requests _ _ _ _, List.mem_cons_self _ _⟩
  · unfold createGistHandler githubOnSuccess
    rw [storeGet_storeSet_self]
    exact ⟨gistReq tokens description isPublic filename content,
      runFetch_requests _ _ _ _, List.mem_cons_self _ _⟩

/-- C5: create-gist with `filename="a.txt"`, `content="x"`,
`public=false` and any description, with a credential present, issues a
request whose JSON body has a `files` mapping with exactly the one key
`"a.txt"` mapped to `{content:"x"}`, `public:false`, and the given
description. -/
theorem gist_request_body_exact
    (s : TokenStore) (net : Net) (authUrl agentId description : String)
    (tokens : OAuth2Tokens) :
    ∃ req, (createGistHandler (githubOnSuccess s agentId tokens) net authUrl
        agentId description false "a.txt" "x").requests = [req] ∧
      req.body = some (Json.obj
        [("description", .str description),
         ("public", .bool false),
         ("files", .obj [("a.txt", .obj [("content", .str "x")])])]) := by
  unfold createGistHandler githubOnSuccess
  rw [storeGet_storeSet_self]
  exact ⟨gistReq tokens description false "a.txt" "x",
    runFetch_requests _ _ _ _, rfl⟩

/-- The provider response of C6. -/
def profileBob : Json :=
  .obj [("login", .str "bob"), ("name", .str "Bob"), ("email", .str "b@x.com"),
        ("bio", .str "hi"), ("public_repos", .num 3)]

/-- C6: with a credential present and the provider answering
`{login:"bob",name:"Bob",email:"b@x.com",bio:"hi",public_repos:3}`, the
profile tool returns a structured result whose data payload is exactly
those five fields with identical values. -/
theorem profile_fields_untransformed
    (s : TokenStore) (authUrl agentId : String) (tokens : OAuth2Tokens) :
    ∃ r, (getUserProfileHandler (githubOnSuccess s agentId tokens)
        (fun _ => .response 200 (.ok profileBob)) authUrl agentId).outcome
        = .ok r ∧
      r.data = Json.obj
        [("login", .str "bob"), ("name", .str "Bob"),
         ("email", .str "b@x.com"), ("bio", .str "hi"),
         ("public_repos", .num 3)] := by
  unfold getUserProfileHandler githubOnSuccess
  rw [storeGet_storeSet_self]
  exact ⟨_, rfl, rfl⟩

/-- C10: when the `public` input of create-gist is omitted, the declared
schema's `z.boolean().default(true)` fills in `true`, so the outbound
request body carries `public: true`. -/
theorem gist_public_defaults_true
    (s : TokenStore) (net : Net)
    (authUrl agentId description filename content : String)
    (tokens : OAuth2Tokens) :
    ∃ req, (createGistHandler (githubOnSuccess s agentId tokens) net authUrl
        agentId description (parsePublicField none) filename
        content).requests = [req] ∧
      ∃ b, req.body = some b ∧ jfield b "public" = some (.bool true) := by
  unfold createGistHandler githubOnSuccess
  rw [storeGet_storeSet_self]
  exact ⟨gistReq tokens description (parsePublicField none) filename content,
    runFetch_requests _ _ _ _,
    gistRequestBody description true filename content, rfl, rfl⟩

/-- A "needs authentication" result: oauth2 UI hint and null data. -/
def needsAuthShape (r : ToolResult) : Prop :=
  r.ui.type = "oauth2" ∧ r.data = Json.null

/-- An "action succeeded" result: card UI hint and non-null data. -/
def actionOkShape (r : ToolResult) : Prop :=
  r.ui.type = "card" ∧ r.data ≠ Json.null

/-- C8: a structured result returned by any of the three tools is never
both a "needs authentication" result and an "action succeeded" result:
exactly one of the two shapes holds (the authenticate branch yields an
oauth2 hint with null data; the action branch a card hint with non-null
data). -/
theorem auth_and_action_mutually_exclusive :
    (∀ store net authUrl agentId toAddr subject body r,
       (sendEmailHandler store net authUrl agentId toAddr subject
         body).outcome = .ok r →
       (needsAuthShape r ∧ ¬ actionOkShape r) ∨
       (actionOkShape r ∧ ¬ needsAuthShape r)) ∧
    (∀ store net authUrl agentId r,
       (getUserProfileHandler store net authUrl agentId).outcome = .ok r →
       (needsAuthShape r ∧ ¬ actionOkShape r) ∨
       (actionOkShape r ∧ ¬ needsAuthShape r)) ∧
    (∀ store net authUrl agentId description isPublic filename content r,
       (createGistHandler store net authUrl agentId description isPublic
         filename content).outcome = .ok r →
       (needsAuthShape r ∧ ¬ actionOkShape r) ∨
       (actionOkShape r ∧ ¬ needsAuthShape r)) := by
  refine ⟨fun store net authUrl agentId toAddr subject body r h => ?_,
          fun store net authUrl agentId r h => ?_,
          fun store net authUrl agentId description isPublic filename content r h => ?_⟩
  · unfold sendEmailHandler at h
    rcases hg : storeGet store agentId with _ | tokens <;> rw [hg] at h
    · simp at h
      subst h
      refine Or.inl ⟨⟨rfl, rfl⟩, fun hc => ?_⟩
      simpa [googleAuthResult, actionOkShape] using hc.1
    · obtain ⟨j, hj⟩ := runFetch_ok _ _ _ _ _ h
      obtain ⟨hcard, hdata⟩ := emailResult_ok _ _ _ _ hj
      refine Or.inr ⟨⟨hcard, hdata⟩, fun hc => ?_⟩
      obtain ⟨h₁, h₂⟩ := hc
      rw [h₁] at hcard
      exact absurd hcard (by decide)
  · unfold getUserProfileHandler at h
    rcases hg : storeGet store agentId with _ | tokens <;> rw [hg] at h
    · simp at h
      subst h
      refine Or.inl ⟨⟨rfl, rfl⟩, fun hc => ?_⟩
      simpa [githubAuthResult, actionOkShape] using hc.1
    · obtain ⟨j, hj⟩ := runFetch_ok _ _ _ _ _ h
      obtain ⟨hcard, hdata⟩ := profileResult_ok _ _ hj
      refine Or.inr ⟨⟨hcard, hdata⟩, fun hc => ?_⟩
      obtain ⟨h₁, h₂⟩ := hc
      rw [h₁] at hcard
      exact absurd hcard (by decide)
  · unfold createGistHandler at h
    rcases hg : storeGet store agentId with _ | tokens <;> rw [hg] at h
    · simp at h
      subst h
      refine Or.inl ⟨⟨rfl, rfl⟩, fun hc => ?_⟩
      simpa [githubAuthResult, actionOkShape] using hc.1
    · obtain ⟨j, hj⟩ := runFetch_ok _ _ _ _ _ h
      obtain ⟨hcard, hdata⟩ := gistResult_ok _ _ hj
      refine Or.inr ⟨⟨hcard, hdata⟩, fun hc => ?_⟩
      obtain ⟨h₁, h₂⟩ := hc
      rw [h₁] at hcard
      exact absurd hcard (by decide)

/-- Witness for C8: the profile tool on the empty store returns the
authenticate result, which is of exactly one of the two shapes. -/
theorem auth_and_action_mutually_exclusive_witness :
    (needsAuthShape (githubAuthResult "https://example.com/auth") ∧
      ¬ actionOkShape (githubAuthResult "https://example.com/auth")) ∨
    (actionOkShape (githubAuthResult "https://example.com/auth") ∧
      ¬ needsAuthShape (githubAuthResult "https://example.com/auth")) :=
  auth_and_action_mutually_exclusive.2.1 [] (fun _ => .netError)
    "https://example.com/auth" "agent-1"
    (githubAuthResult "https://example.com/auth") rfl

/-- A concrete stored credential used in counterexamples and witnesses. -/
def tok1 : OAuth2Tokens := { accessToken := "tok-abc", refreshToken := none }

/-- A network oracle answering every request with HTTP 500 and the JSON
body `{"message":"Bad credentials"}` (a non-success status whose body
parses fine, as GitHub error responses do). -/
def net500 : Net :=
  fun _ => .response 500 (.ok (.obj [("message", .str "Bad credentials")]))

/-- Counterexample to C2: with a credential stored for `"agent-1"`, a
non-2xx (500) outbound response whose body is valid JSON does not
propagate as an uncaught failure — the profile handler, which never
consults the status code, returns a fully structured Tool Result (with
every expected field `undefined`). -/
theorem nonsuccess_response_returns_structured_result :
    (getUserProfileHandler (githubOnSuccess [] "agent-1" tok1) net500
        "https://example.com/auth" "agent-1").outcome =
      .ok
        { text := "Retrieved GitHub profile for undefined"
          data := .obj [("login", .undefined), ("name", .undefined),
                        ("email", .undefined), ("bio", .undefined),
                        ("public_repos", .undefined)]
          ui :=
            { type := "card"
              uiData := .obj
                [("title", .str "GitHub Profile"),
                 ("content", .str "Login: undefined\nName: undefined\nEmail: undefined\nBio: undefined\nPublic Repos: undefined")] } } := by
  rfl

/-- C2 as amended: with a credential present, the outbound-call failures
that actually reject the handler's promise chain — `fetch` rejecting
(network error) or `response.json()` rejecting (body not valid JSON) —
propagate as uncaught failures of the invocation, with no structured
Tool Result; a non-2xx status with a parseable body, or missing fields
in a parsed object body, do not. -/
theorem fetch_rejections_propagate_uncaught
    (store : TokenStore) (net : Net)
    (authUrl agentId toAddr subject body description filename content : String)
    (isPublic : Bool) (tokens : OAuth2Tokens)
    (hTok : storeGet store agentId = some tokens)
    (hNet : ∀ q, fetchFails (net q)) :
    (sendEmailHandler store net authUrl agentId toAddr subject body).outcome
      = .error () ∧
    (getUserProfileHandler store net authUrl agentId).outcome = .error () ∧
    (createGistHandler store net authUrl agentId description isPublic
      filename content).outcome = .error () := by
  refine ⟨?_, ?_, ?_⟩
  · unfold sendEmailHandler
    rw [hTok]
    exact runFetch_fails _ _ _ _ (hNet _)
  · unfold getUserProfileHandler
    rw [hTok]
    exact runFetch_fails _ _ _ _ (hNet _)
  · unfold createGistHandler
    rw [hTok]
    exact runFetch_fails _ _ _ _ (hNet _)

/-- Witness for the amended C2: a stored credential and an oracle whose
every answer is a network error make all three invocations fail
uncaught. -/
theorem fetch_rejections_propagate_uncaught_witness :
    storeGet (githubOnSuccess [] "agent-1" tok1) "agent-1" = some tok1 ∧
    (sendEmailHandler (githubOnSuccess [] "agent-1" tok1)
        (fun _ => .netError) "u" "agent-1" "a@b.com" "Hi" "hello").outcome
      = .error () :=
  ⟨rfl,
    (fetch_rejections_propagate_uncaught (githubOnSuccess [] "agent-1" tok1)
      (fun _ => .netError) "u" "agent-1" "a@b.com" "Hi" "hello" "d" "f.txt"
      "c" true tok1 rfl (fun _ => trivial)).1⟩
